import Mathlib

/-
Shallow embedding of alcor/services/simulations/magnitudes.py.

Numbers are modelled as rationals.  The Python math functions
`math.log10` and the power `10.0 ** x` are not rational-valued, so every
estimator is parametrised over two functions `lg pw : ℚ → ℚ` standing for
the floating-point `log10` and `10.0 ** ·` of the source; all structural
facts proved below hold for every choice of these parameters, and
counterexamples instantiate them with concrete computable functions.

A Python `IndexError` on a 1-D mass array, an `UnboundLocalError` caused
by a bracket-search loop that finds nothing, and the implicit `None`
returned by a function falling off its end are all modelled by `Option`:
a failing computation yields `none`.  The 2-D grids (`cooling_time`,
interest parameters) are physically allocated with padding past the
per-track valid row count (see da_cooling.py: `nan_matrix` of shape
(tracks, 650), `rows_counts[i] = row_index + 1`), so they are modelled as
total functions `Nat → Nat → ℚ`; reads past the valid count succeed and
return padding, exactly as in the source.
-/

namespace Alcor

/-- A cooling-sequence / color-table grid's navigation data, after
`Dict[str, np.ndarray]` of the source: the 1-D `mass` array (modelled as a
list so that out-of-range indexing can fail), the 2-D `cooling_time`
array, the 1-D `pre_wd_lifetime` array and the per-track valid row counts
`rows_counts`.  Interest-parameter 2-D arrays are passed separately, as
the source functions receive them (`interest_sequence` parameter). -/
structure Grid where
  mass : List ℚ
  cooling_time : Nat → Nat → ℚ
  pre_wd_lifetime : Nat → ℚ
  rows_counts : Nat → Nat

/-- Embeds `get_extrapolated_xm` (magnitudes.py lines 461-497).  With
`one_model` the fitted line is plain-linear in cooling time; otherwise the
time axis is `log10(cooling_time + pre_wd_lifetime)` and, with
`by_logarithm`, the interest axis is logarithmic as well (the result then
being `10 ** ·` of the fitted value). -/
def get_extrapolated_xm (lg pw : ℚ → ℚ) (g : Grid) (interest : Nat → Nat → ℚ)
    (t : ℚ) (mass_index min_row_index : Nat)
    (by_logarithm one_model : Bool) : ℚ :=
  if one_model then
    let deltf := g.cooling_time mass_index (min_row_index + 1)
                 - g.cooling_time mass_index min_row_index
    let s := (interest mass_index (min_row_index + 1)
              - interest mass_index min_row_index) / deltf
    let b := interest mass_index (min_row_index + 1)
             - s * g.cooling_time mass_index (min_row_index + 1)
    s * t + b
  else
    let deltf := lg ((g.cooling_time mass_index (min_row_index + 1)
                      + g.pre_wd_lifetime mass_index)
                     / (g.cooling_time mass_index min_row_index
                        + g.pre_wd_lifetime mass_index))
    if by_logarithm then
      let s := lg (interest mass_index (min_row_index + 1)
                   / interest mass_index min_row_index) / deltf
      let b := lg (interest mass_index (min_row_index + 1))
               - s * lg (g.cooling_time mass_index (min_row_index + 1)
                         + g.pre_wd_lifetime mass_index)
      pw (s * lg (t + g.pre_wd_lifetime mass_index) + b)
    else
      let s := (interest mass_index (min_row_index + 1)
                - interest mass_index min_row_index) / deltf
      let b := interest mass_index (min_row_index + 1)
               - s * lg (g.cooling_time mass_index (min_row_index + 1)
                         + g.pre_wd_lifetime mass_index)
      s * lg (t + g.pre_wd_lifetime mass_index) + b

/-- Embeds `get_xm` (magnitudes.py lines 417-458).  The upper boundary
test reads `cooling_time[mass_index, rows_count]`, the first row past the
valid count.  The interpolation loop returns on its first match; if no
bracketing pair is found the Python function implicitly returns `None`,
modelled as `none`. -/
def get_xm (lg pw : ℚ → ℚ) (g : Grid) (interest : Nat → Nat → ℚ)
    (t : ℚ) (mass_index : Nat) (by_logarithm one_model : Bool) : Option ℚ :=
  if t < g.cooling_time mass_index 0 then
    some (get_extrapolated_xm lg pw g interest t mass_index 0
            by_logarithm one_model)
  else
    let rows_count := g.rows_counts mass_index
    if t > g.cooling_time mass_index rows_count then
      some (get_extrapolated_xm lg pw g interest t mass_index (rows_count - 1)
              by_logarithm one_model)
    else
      match (List.range (rows_count - 1)).find? (fun row_index =>
          decide (g.cooling_time mass_index row_index ≤ t)
          && decide (t ≤ g.cooling_time mass_index (row_index + 1))) with
      | some row_index =>
          some (interest mass_index row_index
                + (t - g.cooling_time mass_index row_index)
                  / (g.cooling_time mass_index (row_index + 1)
                     - g.cooling_time mass_index row_index)
                  * (interest mass_index (row_index + 1)
                     - interest mass_index row_index))
      | none => none

/-- The per-track outcome recorded by the `case_1`/`case_2` flags of
`interpolate_by_mass`: either a single extrapolated value, or the
bracketing pair `(y1, y2)` of cooling times with its interest values
`(x1, x2)`. -/
inductive TrackCase where
  | extrapolated : ℚ → TrackCase
  | interpolated : ℚ → ℚ → ℚ → ℚ → TrackCase
deriving DecidableEq

/-- Embeds the two identical inline per-track blocks of
`interpolate_by_mass` (magnitudes.py lines 323-357 for the lesser track
and 359-393 for the greater one).  Unlike `get_xm`, the lower branch
passes `min_row_index = 1`, the upper test uses `>=` against
`cooling_time[i, rows_counts[i]]` and passes `min_row_index =
rows_counts[i]`, and the bracket loop carries no `break`, so the *last*
matching row wins.  A loop that matches nothing leaves `case_1`/`x1`
unbound in Python: modelled as `none`. -/
def track_case (lg pw : ℚ → ℚ) (g : Grid) (interest : Nat → Nat → ℚ)
    (t : ℚ) (mass_index : Nat) (by_logarithm one_model : Bool) :
    Option TrackCase :=
  if t < g.cooling_time mass_index 0 then
    some (TrackCase.extrapolated
      (get_extrapolated_xm lg pw g interest t mass_index 1
        by_logarithm one_model))
  else if t ≥ g.cooling_time mass_index (g.rows_counts mass_index) then
    some (TrackCase.extrapolated
      (get_extrapolated_xm lg pw g interest t mass_index
        (g.rows_counts mass_index) by_logarithm one_model))
  else
    match ((List.range (g.rows_counts mass_index - 1)).filter
        (fun row_index =>
          decide (g.cooling_time mass_index row_index ≤ t)
          && decide (t ≤ g.cooling_time mass_index (row_index + 1)))).getLast?
        with
    | some row_index =>
        some (TrackCase.interpolated
          (g.cooling_time mass_index row_index)
          (g.cooling_time mass_index (row_index + 1))
          (interest mass_index row_index)
          (interest mass_index (row_index + 1)))
    | none => none

/-- Embeds `interpolate_by_mass` (magnitudes.py lines 309-414): bracket
the star's mass (first matching pair, loop breaks), resolve each
bracketing track through its inline `track_case` block, then combine the
four `case_1`/`case_2` combinations as four distinct algebraic
formulas. -/
def interpolate_by_mass (lg pw : ℚ → ℚ) (g : Grid)
    (interest : Nat → Nat → ℚ) (star_mass t : ℚ)
    (by_logarithm one_model : Bool) : Option ℚ := do
  let min_mass_index ← (List.range (g.mass.length - 1)).find? (fun row_index =>
      decide (g.mass.getD row_index 0 ≤ star_mass)
      && decide (star_mass < g.mass.getD (row_index + 1) 0))
  let c1 ← track_case lg pw g interest t min_mass_index
             by_logarithm one_model
  let c2 ← track_case lg pw g interest t (min_mass_index + 1)
             by_logarithm one_model
  let min_mass ← g.mass.get? min_mass_index
  let max_mass ← g.mass.get? (min_mass_index + 1)
  let den := (star_mass - min_mass) / (max_mass - min_mass)
  match c1, c2 with
  | TrackCase.interpolated y1 y2 x1 x2, TrackCase.interpolated y3 y4 x3 x4 =>
      let ym1 := y1 + (y3 - y1) * den
      let ym2 := y2 + (y4 - y2) * den
      let xm1 := x1 + (x3 - x1) * den
      let xm2 := x2 + (x4 - x2) * den
      some (xm1 + (t - ym1) / (ym2 - ym1) * (xm2 - xm1))
  | TrackCase.interpolated y1 y2 x1 x2, TrackCase.extrapolated x3 =>
      let xm1 := x1 + (x2 - x1) * (t - y1) / (y2 - y1)
      some (xm1 + (x3 - xm1) * den)
  | TrackCase.extrapolated x1, TrackCase.interpolated y3 y4 x3 x4 =>
      let xm2 := x3 + (x4 - x3) * (t - y3) / (y4 - y3)
      some (x1 + (xm2 - x1) * den)
  | TrackCase.extrapolated x1, TrackCase.extrapolated x3 =>
      some (x1 + (x3 - x1) * den)

/-- Embeds `extrapolate_by_mass` (magnitudes.py lines 275-306): resolve
the tracks `min_mass_index` and `min_mass_index + 1` through `get_xm` and
fit a line across mass.  The source reads `mass[min_mass_index]`, runs
`get_xm`, then reads `mass[min_mass_index + 1]`; a read past the end of
the mass array is an `IndexError`, modelled by `List.get?` yielding
`none`. -/
def extrapolate_by_mass (lg pw : ℚ → ℚ) (g : Grid)
    (interest : Nat → Nat → ℚ) (star_mass t : ℚ) (min_mass_index : Nat)
    (by_logarithm one_model : Bool) : Option ℚ := do
  let min_mass ← g.mass.get? min_mass_index
  let xm1 ← get_xm lg pw g interest t min_mass_index by_logarithm one_model
  let max_mass ← g.mass.get? (min_mass_index + 1)
  let xm2 ← get_xm lg pw g interest t (min_mass_index + 1)
              by_logarithm one_model
  let s := (xm2 - xm1) / (max_mass - min_mass)
  some (s * star_mass + (xm2 - s * max_mass))

/-- Embeds `interpolate` (magnitudes.py lines 240-272).  `grid_masses[-1]`
is the last element and `grid_masses.size()` the length of the mass array
(the numpy `size` attribute); for a star mass at or above the largest
grid mass the source passes `min_mass_index = grid_masses.size() - 1` to
`extrapolate_by_mass`. -/
def interpolate (lg pw : ℚ → ℚ) (g : Grid) (interest : Nat → Nat → ℚ)
    (star_mass t : ℚ) (by_logarithm one_model : Bool) : Option ℚ := do
  let first_mass ← g.mass.get? 0
  if star_mass < first_mass then
    extrapolate_by_mass lg pw g interest star_mass t 0 by_logarithm one_model
  else do
    let last_mass ← g.mass.get? (g.mass.length - 1)
    if star_mass ≥ last_mass then
      extrapolate_by_mass lg pw g interest star_mass t (g.mass.length - 1)
        by_logarithm one_model
    else
      interpolate_by_mass lg pw g interest star_mass t by_logarithm one_model

/-- Embeds `linear_estimation = partial(InterpolatedUnivariateSpline, k=1)`
applied to two points (magnitudes.py lines 17-18): the degree-1 spline
through `(x1, y1)` and `(x2, y2)`, which is the affine line through them,
evaluated at `t` (the spline extrapolates the same line outside
`[x1, x2]`). -/
def linear_estimation (x1 x2 y1 y2 t : ℚ) : ℚ :=
  y1 + (y2 - y1) * (t - x1) / (x2 - x1)

/-- Embeds `get_interpolated_magnitude` (magnitudes.py lines 667-692):
per-track candidates from tracks `mass_index` and `mass_index + 1`, final
mass blend anchored at `table_mass[0]` and `table_mass[1]`.  No
non-negativity clamp is applied. -/
def get_interpolated_magnitude (star_mass star_luminosity : ℚ)
    (table_luminosity table_magnitude : Nat → Nat → ℚ)
    (table_mass : Nat → ℚ) (row_index_1 row_index_2 mass_index : Nat) : ℚ :=
  let c_1 := linear_estimation
    (table_luminosity mass_index row_index_1)
    (table_luminosity mass_index (row_index_1 + 1))
    (table_magnitude mass_index row_index_1)
    (table_magnitude mass_index (row_index_1 + 1)) star_luminosity
  let c_2 := linear_estimation
    (table_luminosity (mass_index + 1) row_index_2)
    (table_luminosity (mass_index + 1) (row_index_2 + 1))
    (table_magnitude (mass_index + 1) row_index_2)
    (table_magnitude (mass_index + 1) (row_index_2 + 1)) star_luminosity
  linear_estimation (table_mass 0) (table_mass 1) c_1 c_2 star_mass

/-- Embeds `get_abs_magnitude` (magnitudes.py lines 696-724): per-track
candidates from tracks `mass_index` and `mass_index + 1`, final mass
blend anchored at `table_mass[mass_index]` and
`table_mass[mass_index + 1]`, clamped by `max(0, ·)`. -/
def get_abs_magnitude (star_mass star_luminosity : ℚ)
    (table_luminosity table_magnitude : Nat → Nat → ℚ)
    (table_mass : Nat → ℚ) (row_index_1 row_index_2 mass_index : Nat) : ℚ :=
  let c_1 := linear_estimation
    (table_luminosity mass_index row_index_1)
    (table_luminosity mass_index (row_index_1 + 1))
    (table_magnitude mass_index row_index_1)
    (table_magnitude mass_index (row_index_1 + 1)) star_luminosity
  let c_2 := linear_estimation
    (table_luminosity (mass_index + 1) row_index_2)
    (table_luminosity (mass_index + 1) (row_index_2 + 1))
    (table_magnitude (mass_index + 1) row_index_2)
    (table_magnitude (mass_index + 1) (row_index_2 + 1)) star_luminosity
  max 0 (linear_estimation (table_mass mass_index)
    (table_mass (mass_index + 1)) c_1 c_2 star_mass)

/-- The DA/DB color table (`Dict[str, np.ndarray]` keyed by
`'mass'`, `'luminosity'`, the five UBVRI band arrays and
`'rows_counts'`).  The 2-D arrays are total functions over physical
(padded) storage, as in `Grid`. -/
structure ColorTable where
  mass : List ℚ
  luminosity : Nat → Nat → ℚ
  u_ubvri_absolute : Nat → Nat → ℚ
  b_ubvri_absolute : Nat → Nat → ℚ
  v_ubvri_absolute : Nat → Nat → ℚ
  r_ubvri_absolute : Nat → Nat → ℚ
  i_ubvri_absolute : Nat → Nat → ℚ
  rows_counts : Nat → Nat

/-- The source indexes `table_mass` (a numpy array) inside
`get_interpolated_magnitude`/`get_abs_magnitude` with indices that its
callers keep in range along the paths modelled here; the list is adapted
to the total-function parameter those embeddings take. -/
def table_mass_fn (ct : ColorTable) : Nat → ℚ :=
  fun i => ct.mass.getD i 0

/-- Embeds `get_interpolated_magnitudes_by_luminosity` (magnitudes.py
lines 564-640).  Color-table luminosity is descending within a track, so
the bracket test is `luminosity[i, r+1] <= L <= luminosity[i, r]`; both
loops break on the first match.  When either `check` flag stays 0 the
Python function implicitly returns `None`. -/
def get_interpolated_magnitudes_by_luminosity (star_mass : ℚ)
    (rows_count_1 rows_count_2 : Nat) (ct : ColorTable) (luminosity : ℚ)
    (mass_index : Nat) : Option (ℚ × ℚ × ℚ × ℚ × ℚ) :=
  match (List.range (rows_count_1 - 1)).find? (fun row_index =>
      decide (ct.luminosity mass_index (row_index + 1) ≤ luminosity)
      && decide (luminosity ≤ ct.luminosity mass_index row_index)),
    (List.range (rows_count_2 - 1)).find? (fun row_index =>
      decide (ct.luminosity (mass_index + 1) (row_index + 1) ≤ luminosity)
      && decide (luminosity ≤ ct.luminosity (mass_index + 1) row_index)) with
  | some row_index_1, some row_index_2 =>
      some (get_interpolated_magnitude star_mass luminosity ct.luminosity
              ct.u_ubvri_absolute (table_mass_fn ct)
              row_index_1 row_index_2 mass_index,
            get_interpolated_magnitude star_mass luminosity ct.luminosity
              ct.b_ubvri_absolute (table_mass_fn ct)
              row_index_1 row_index_2 mass_index,
            get_interpolated_magnitude star_mass luminosity ct.luminosity
              ct.v_ubvri_absolute (table_mass_fn ct)
              row_index_1 row_index_2 mass_index,
            get_interpolated_magnitude star_mass luminosity ct.luminosity
              ct.r_ubvri_absolute (table_mass_fn ct)
              row_index_1 row_index_2 mass_index,
            get_interpolated_magnitude star_mass luminosity ct.luminosity
              ct.i_ubvri_absolute (table_mass_fn ct)
              row_index_1 row_index_2 mass_index)
  | _, _ => none

/-- Embeds `get_extrapolated_magnitudes_by_luminosity` (magnitudes.py
lines 643-663): `get_abs_magnitude` on each of the five bands at the
given row indices. -/
def get_extrapolated_magnitudes_by_luminosity (star_mass luminosity : ℚ)
    (ct : ColorTable) (row_index_1 row_index_2 mass_index : Nat) :
    ℚ × ℚ × ℚ × ℚ × ℚ :=
  (get_abs_magnitude star_mass luminosity ct.luminosity
     ct.u_ubvri_absolute (table_mass_fn ct)
     row_index_1 row_index_2 mass_index,
   get_abs_magnitude star_mass luminosity ct.luminosity
     ct.b_ubvri_absolute (table_mass_fn ct)
     row_index_1 row_index_2 mass_index,
   get_abs_magnitude star_mass luminosity ct.luminosity
     ct.v_ubvri_absolute (table_mass_fn ct)
     row_index_1 row_index_2 mass_index,
   get_abs_magnitude star_mass luminosity ct.luminosity
     ct.r_ubvri_absolute (table_mass_fn ct)
     row_index_1 row_index_2 mass_index,
   get_abs_magnitude star_mass luminosity ct.luminosity
     ct.i_ubvri_absolute (table_mass_fn ct)
     row_index_1 row_index_2 mass_index)

/-- Embeds `get_magnitudes` (magnitudes.py lines 528-561): bright-end
extrapolation when the luminosity exceeds the first-row luminosity of
either bracketing track; faint-end extrapolation when it is below the
entry at row index `rows_count` (the first row past the valid count) of
either track; otherwise interpolation. -/
def get_magnitudes (star_mass luminosity : ℚ) (ct : ColorTable)
    (rows_count_1 rows_count_2 mass_index : Nat) :
    Option (ℚ × ℚ × ℚ × ℚ × ℚ) :=
  if luminosity > ct.luminosity mass_index 0
      ∨ luminosity > ct.luminosity (mass_index + 1) 0 then
    some (get_extrapolated_magnitudes_by_luminosity star_mass luminosity ct
            0 0 mass_index)
  else if luminosity < ct.luminosity mass_index rows_count_1
      ∨ luminosity < ct.luminosity (mass_index + 1) rows_count_2 then
    some (get_extrapolated_magnitudes_by_luminosity star_mass luminosity ct
            rows_count_1 rows_count_2 mass_index)
  else
    get_interpolated_magnitudes_by_luminosity star_mass
      rows_count_1 rows_count_2 ct luminosity mass_index

/-- Embeds `interpolate_magnitudes` (magnitudes.py lines 500-525): the
color-table mass bracket (`mass[k] < star_mass <= mass[k+1]`, loop breaks
on the first match) with the two outer-track special cases; note the
upper case passes `min_mass_index = size - 1`, as in the source. -/
def interpolate_magnitudes (star_mass luminosity : ℚ) (ct : ColorTable) :
    Option (ℚ × ℚ × ℚ × ℚ × ℚ) := do
  let first_mass ← ct.mass.get? 0
  if star_mass ≤ first_mass then
    get_magnitudes star_mass luminosity ct
      (ct.rows_counts 0) (ct.rows_counts 1) 0
  else do
    let last_mass ← ct.mass.get? (ct.mass.length - 1)
    if star_mass > last_mass then
      get_magnitudes star_mass luminosity ct
        (ct.rows_counts (ct.mass.length - 2))
        (ct.rows_counts (ct.mass.length - 1)) (ct.mass.length - 1)
    else
      match (List.range (ct.mass.length - 1)).find? (fun mass_index =>
          decide (ct.mass.getD mass_index 0 < star_mass)
          && decide (star_mass ≤ ct.mass.getD (mass_index + 1) 0)) with
      | some mass_index =>
          get_magnitudes star_mass luminosity ct
            (ct.rows_counts mass_index) (ct.rows_counts (mass_index + 1))
            mass_index
      | none => none

/-- One metallicity's cooling-sequence table: navigation data plus the
`'luminosity'` and `'effective_temperature'` interest arrays used by
`get_luminosity_effective_temperature_limits`. -/
structure CoolingSequence where
  base : Grid
  luminosity : Nat → Nat → ℚ
  effective_temperature : Nat → Nat → ℚ

/-- Embeds `get_luminosity_effective_temperature_limits` (magnitudes.py
lines 210-237): four `interpolate` calls, luminosity with
`by_logarithm=False` and effective temperature with `by_logarithm=True`,
for each of the two bracketing metallicities (keyed by thousandths).  The
result tuple is `(min_luminosity, max_luminosity,
min_effective_temperature, max_effective_temperature)`. -/
def get_luminosity_effective_temperature_limits (lg pw : ℚ → ℚ)
    (cooling_sequences : Int → CoolingSequence) (star_mass t : ℚ)
    (min_metallicity_by_thousand max_metallicity_by_thousand : Int) :
    Option (ℚ × ℚ × ℚ × ℚ) := do
  let min_luminosity ← interpolate lg pw
    (cooling_sequences min_metallicity_by_thousand).base
    (cooling_sequences min_metallicity_by_thousand).luminosity
    star_mass t false false
  let min_effective_temperature ← interpolate lg pw
    (cooling_sequences min_metallicity_by_thousand).base
    (cooling_sequences min_metallicity_by_thousand).effective_temperature
    star_mass t true false
  let max_luminosity ← interpolate lg pw
    (cooling_sequences max_metallicity_by_thousand).base
    (cooling_sequences max_metallicity_by_thousand).luminosity
    star_mass t false false
  let max_effective_temperature ← interpolate lg pw
    (cooling_sequences max_metallicity_by_thousand).base
    (cooling_sequences max_metallicity_by_thousand).effective_temperature
    star_mass t true false
  some (min_luminosity, max_luminosity,
        min_effective_temperature, max_effective_temperature)

/-- Embeds `da_db_interpolation` (magnitudes.py lines 161-207).  The
metallicity bracket loop breaks on its first match; when no pair of
consecutive tabulated metallicities brackets the star's metallicity the
locals `min_luminosity`, `min_metallicity`, ... stay unbound and the
lines after the loop raise an `UnboundLocalError` naming only the local
variable, modelled as `none` (a failure carrying no star information).
The dictionary key is `int(metallicity * 1e3)`; for the positive
metallicities used here Python's `int` truncation equals the floor. -/
def da_db_interpolation (lg pw : ℚ → ℚ)
    (cooling_sequences : Int → CoolingSequence) (color_table : ColorTable)
    (metallicities : List ℚ) (star_mass star_metallicity t : ℚ) :
    Option (ℚ × ℚ × ℚ × ℚ × ℚ × ℚ × ℚ) := do
  let metallicity_index ←
    (List.range (metallicities.length - 1)).find? (fun j =>
      decide (metallicities.getD j 0 ≤ star_metallicity)
      && decide (star_metallicity < metallicities.getD (j + 1) 0))
  let min_metallicity := metallicities.getD metallicity_index 0
  let max_metallicity := metallicities.getD (metallicity_index + 1) 0
  let limits ← get_luminosity_effective_temperature_limits lg pw
    cooling_sequences star_mass t
    (Rat.floor (min_metallicity * 1000)) (Rat.floor (max_metallicity * 1000))
  let luminosity := limits.1
    + (limits.2.1 - limits.1)
      * (star_metallicity - min_metallicity)
      / (max_metallicity - min_metallicity)
  let effective_temperature := limits.2.2.1
    + (limits.2.2.2 - limits.2.2.1)
      * (star_metallicity - min_metallicity)
      / (max_metallicity - min_metallicity)
  let magnitudes ← interpolate_magnitudes star_mass luminosity color_table
  some (luminosity, effective_temperature, magnitudes.1, magnitudes.2.1,
        magnitudes.2.2.1, magnitudes.2.2.2.1, magnitudes.2.2.2.2)

/-- The ONe color table (`one_color_table`): navigation data plus the
seven interest arrays read by `one_interpolation`. -/
structure OneTable where
  base : Grid
  luminosity : Nat → Nat → ℚ
  v_ubvri_absolute : Nat → Nat → ℚ
  bv_ubvri : Nat → Nat → ℚ
  vi_ubvri : Nat → Nat → ℚ
  vr_ubvri : Nat → Nat → ℚ
  uv_ubvri : Nat → Nat → ℚ
  log_effective_temperature : Nat → Nat → ℚ

/-- Embeds `one_interpolation` (magnitudes.py lines 102-158).  The star's
cooling time is first overwritten with `log10(cooling_time) + 9`; every
lookup then runs `interpolate` against the single ONe table with the
given flags (the orchestrator passes `one_model=True`,
`by_logarithm=False`, the defaults).  The returned tuple is
`(luminosity, effective_temperature = 10 ** log_effective_temperature,
u, b, v, r, i)` with `u = uv + v`, `b = bv + v`, `r = v - vr`,
`i = v - vi`. -/
def one_interpolation (lg pw : ℚ → ℚ) (color_table : OneTable)
    (star_mass cooling_time : ℚ) (one_model by_logarithm : Bool) :
    Option (ℚ × ℚ × ℚ × ℚ × ℚ × ℚ × ℚ) := do
  let t := lg cooling_time + 9
  let luminosity ← interpolate lg pw color_table.base color_table.luminosity
    star_mass t by_logarithm one_model
  let v_ubvri_absolute ← interpolate lg pw color_table.base
    color_table.v_ubvri_absolute star_mass t by_logarithm one_model
  let bv_ubvri ← interpolate lg pw color_table.base
    color_table.bv_ubvri star_mass t by_logarithm one_model
  let vi_ubvri ← interpolate lg pw color_table.base
    color_table.vi_ubvri star_mass t by_logarithm one_model
  let vr_ubvri ← interpolate lg pw color_table.base
    color_table.vr_ubvri star_mass t by_logarithm one_model
  let uv_ubvri ← interpolate lg pw color_table.base
    color_table.uv_ubvri star_mass t by_logarithm one_model
  let log_effective_temperature ← interpolate lg pw color_table.base
    color_table.log_effective_temperature star_mass t by_logarithm one_model
  let effective_temperature := pw log_effective_temperature
  let u_ubvri_absolute := uv_ubvri + v_ubvri_absolute
  let b_ubvri_absolute := bv_ubvri + v_ubvri_absolute
  let r_ubvri_absolute := v_ubvri_absolute - vr_ubvri
  let i_ubvri_absolute := v_ubvri_absolute - vi_ubvri
  some (luminosity, effective_temperature, u_ubvri_absolute,
        b_ubvri_absolute, v_ubvri_absolute, r_ubvri_absolute,
        i_ubvri_absolute)

inductive SpectralType where
  | DA
  | DB
  | ONe
deriving DecidableEq

/-- A star record (one row of the `stars` DataFrame): the three input
fields and the derived output fields, `none` while unset (the simulator
output rows carry no derived fields before magnitude assignment). -/
structure Star where
  mass : ℚ
  metallicity : ℚ
  cooling_time : ℚ
  spectral_type : Option SpectralType
  luminosity : Option ℚ
  effective_temperature : Option ℚ
  u_ubvri_absolute : Option ℚ
  b_ubvri_absolute : Option ℚ
  v_ubvri_absolute : Option ℚ
  r_ubvri_absolute : Option ℚ
  i_ubvri_absolute : Option ℚ
deriving DecidableEq

/-- The loop body of `assign_magnitudes` for one carbon-oxygen star
(magnitudes.py lines 37-72), acting on the row copy yielded by
`iterrows`.  `r` is the star's `np.random.rand()` draw:
`get_spectral_type` (lines 96-99) returns DB when `r < db_to_da_fraction`
and DA otherwise.  The stored luminosity is the negated interpolated
value. -/
def co_branch_update (lg pw : ℚ → ℚ) (r db_to_da_fraction : ℚ)
    (da_cooling_sequences db_cooling_sequences : Int → CoolingSequence)
    (da_color_table db_color_table : ColorTable) (star : Star) :
    Option Star :=
  if r < db_to_da_fraction then do
    let out ← da_db_interpolation lg pw db_cooling_sequences db_color_table
      [1/1000, 1/100, 6/100] star.mass star.metallicity star.cooling_time
    some { star with
      spectral_type := some SpectralType.DB,
      luminosity := some (-out.1),
      effective_temperature := some out.2.1,
      u_ubvri_absolute := some out.2.2.1,
      b_ubvri_absolute := some out.2.2.2.1,
      v_ubvri_absolute := some out.2.2.2.2.1,
      r_ubvri_absolute := some out.2.2.2.2.2.1,
      i_ubvri_absolute := some out.2.2.2.2.2.2 }
  else do
    let out ← da_db_interpolation lg pw da_cooling_sequences da_color_table
      [1/1000, 1/100, 3/100, 6/100] star.mass star.metallicity
      star.cooling_time
    some { star with
      spectral_type := some SpectralType.DA,
      luminosity := some (-out.1),
      effective_temperature := some out.2.1,
      u_ubvri_absolute := some out.2.2.1,
      b_ubvri_absolute := some out.2.2.2.1,
      v_ubvri_absolute := some out.2.2.2.2.1,
      r_ubvri_absolute := some out.2.2.2.2.2.1,
      i_ubvri_absolute := some out.2.2.2.2.2.2 }

/-- The loop body of `assign_magnitudes` for one oxygen-neon star
(magnitudes.py lines 74-91), acting on the row copy: spectral type ONe,
`one_interpolation` with its default flags `one_model=True`,
`by_logarithm=False`, negated luminosity.  `one_interpolation` also
overwrites the row copy's `cooling_time` with `log10(cooling_time) + 9`
(line 106). -/
def one_branch_update (lg pw : ℚ → ℚ) (one_color_table : OneTable)
    (star : Star) : Option Star := do
  let out ← one_interpolation lg pw one_color_table star.mass
    star.cooling_time true false
  some { star with
    spectral_type := some SpectralType.ONe,
    cooling_time := lg star.cooling_time + 9,
    luminosity := some (-out.1),
    effective_temperature := some out.2.1,
    u_ubvri_absolute := some out.2.2.1,
    b_ubvri_absolute := some out.2.2.2.1,
    v_ubvri_absolute := some out.2.2.2.2.1,
    r_ubvri_absolute := some out.2.2.2.2.2.1,
    i_ubvri_absolute := some out.2.2.2.2.2.2 }

def insert_nat (x : Nat) : List Nat → List Nat
  | [] => [x]
  | y :: ys => if x ≤ y then x :: y :: ys else y :: insert_nat x ys

def sort_nat : List Nat → List Nat
  | [] => []
  | x :: xs => insert_nat x (sort_nat xs)

/-- Models the final `carbon_oxygen_white_dwarfs + oxygen_neon_white_dwarfs`
of `assign_magnitudes` (magnitudes.py line 93): pandas elementwise
addition of two DataFrames aligns on the sorted union of their indices,
and at every index present in only one operand — which in
`assign_magnitudes` is every index, the two sub-frames partitioning the
original — the resulting row's fields are all missing (NaN), modelled by
`none`. -/
def frame_add (a b : List (Nat × Star)) : List (Nat × Option Star) :=
  (sort_nat (a.map Prod.fst ++ b.map Prod.fst)).map (fun i => (i, none))

/-- Embeds `assign_magnitudes` (magnitudes.py lines 21-93).  `rand` is
the stream of `np.random.rand()` draws (one per carbon-oxygen star, in
iteration order).  The two `iterrows` loops compute an updated record per
star, but `iterrows` yields row *copies*, so those records are never
written back into `stars`; an estimation failure in any row aborts the
whole call (`none`).  On success the result pairs the final state of the
input collection — unchanged — with the value of
`carbon_oxygen_white_dwarfs + oxygen_neon_white_dwarfs`. -/
def assign_magnitudes (lg pw : ℚ → ℚ) (rand : Nat → ℚ)
    (max_carbon_oxygen_core_wd_mass db_to_da_fraction : ℚ)
    (da_cooling_sequences db_cooling_sequences : Int → CoolingSequence)
    (da_color_table db_color_table : ColorTable)
    (one_color_table : OneTable) (stars : List Star) :
    Option (List Star × List (Nat × Option Star)) := do
  let carbon_oxygen_white_dwarfs := stars.enum.filter
    (fun p => decide (p.2.mass < max_carbon_oxygen_core_wd_mass))
  let oxygen_neon_white_dwarfs := stars.enum.filter
    (fun p => !(decide (p.2.mass < max_carbon_oxygen_core_wd_mass)))
  let _ ← carbon_oxygen_white_dwarfs.enum.mapM (fun q =>
    co_branch_update lg pw (rand q.1) db_to_da_fraction
      da_cooling_sequences db_cooling_sequences
      da_color_table db_color_table q.2.2)
  let _ ← oxygen_neon_white_dwarfs.mapM (fun p =>
    one_branch_update lg pw one_color_table p.2)
  some (stars, frame_add carbon_oxygen_white_dwarfs oxygen_neon_white_dwarfs)

/-- A three-track grid with linear sample data: cooling times 0,1,2,...
per track, three valid rows per track. -/
def gC1 : Grid :=
  { mass := [1/2, 7/10, 9/10],
    cooling_time := fun _ j => (j : ℚ),
    pre_wd_lifetime := fun _ => 0,
    rows_counts := fun _ => 3 }

def intC1 : Nat → Nat → ℚ := fun _ j => (j : ℚ)

/-- A grid with two valid rows per track; its padding entry at row 2 of
track 0 is 100. -/
def gC6a : Grid :=
  { mass := [1/2, 7/10],
    cooling_time := fun _ j => if j = 2 then 100 else (j : ℚ),
    pre_wd_lifetime := fun _ => 0,
    rows_counts := fun _ => 2 }

/-- The same grid as `gC6a` on every valid row, differing only in the
padding entry at row 2 of track 0. -/
def gC6b : Grid :=
  { mass := [1/2, 7/10],
    cooling_time := fun _ j => if j = 2 then 5/2 else (j : ℚ),
    pre_wd_lifetime := fun _ => 0,
    rows_counts := fun _ => 2 }

def intC6 : Nat → Nat → ℚ := fun _ j => (j : ℚ)

/-- A two-track grid on which, at cooling time 4, the lesser track
interpolates (bracket rows 0-1) and the greater track extrapolates past
its valid rows. -/
def gC2 : Grid :=
  { mass := [1, 3],
    cooling_time := fun i j => if i = 0 then 5 * (j : ℚ) else (j : ℚ),
    pre_wd_lifetime := fun _ => 0,
    rows_counts := fun _ => 2 }

def intC2 : Nat → Nat → ℚ := fun i j => (i : ℚ) + (j : ℚ)

/-- A color table whose five magnitude tables are constantly -2, with
descending luminosity 10, 9, 8 on the three valid rows of each track. -/
def ctC3 : ColorTable :=
  { mass := [1, 3],
    luminosity := fun _ r => 10 - (r : ℚ),
    u_ubvri_absolute := fun _ _ => -2,
    b_ubvri_absolute := fun _ _ => -2,
    v_ubvri_absolute := fun _ _ => -2,
    r_ubvri_absolute := fun _ _ => -2,
    i_ubvri_absolute := fun _ _ => -2,
    rows_counts := fun _ => 3 }

/-- A cooling sequence whose interest arrays make the logarithmic and
non-logarithmic extrapolation modes produce different values at cooling
time 1/2 (below the tracks' first sample 1). -/
def cseqC5 : CoolingSequence :=
  { base := { mass := [1, 3],
              cooling_time := fun _ j => (j : ℚ) + 1,
              pre_wd_lifetime := fun _ => 0,
              rows_counts := fun _ => 2 },
    luminosity := fun _ j => (j : ℚ) + 2,
    effective_temperature := fun _ j => (j : ℚ) + 2 }

def csC5 : Int → CoolingSequence := fun _ => cseqC5

/-- A color table with two valid rows per track: track 0 luminosities
(10, 5), track 1 luminosities (12, 6), padding entry 0 past the valid
rows. -/
def ctC7 : ColorTable :=
  { mass := [1, 3],
    luminosity := fun i j =>
      if i = 0 then (if j = 0 then 10 else if j = 1 then 5 else 0)
      else (if j = 0 then 12 else if j = 1 then 6 else 0),
    u_ubvri_absolute := fun _ _ => 1,
    b_ubvri_absolute := fun _ _ => 1,
    v_ubvri_absolute := fun _ _ => 1,
    r_ubvri_absolute := fun _ _ => 1,
    i_ubvri_absolute := fun _ _ => 1,
    rows_counts := fun _ => 2 }

/-- The navigation grid of the concrete ONe table fixture. -/
def otC8base : Grid :=
  { mass := [1, 3],
    cooling_time := fun _ j => 7 * (j : ℚ),
    pre_wd_lifetime := fun _ => 0,
    rows_counts := fun _ => 3 }

/-- The linear interest array shared by the fixture's seven fields. -/
def otC8fn : Nat → Nat → ℚ := fun _ j => (j : ℚ)

/-- A three-valid-row ONe color table with linear sample data on every
interest array. -/
def otC8 : OneTable :=
  { base := otC8base,
    luminosity := otC8fn,
    v_ubvri_absolute := otC8fn,
    bv_ubvri := otC8fn,
    vi_ubvri := otC8fn,
    vr_ubvri := otC8fn,
    uv_ubvri := otC8fn,
    log_effective_temperature := otC8fn }

def starC8 : Star :=
  { mass := 2, metallicity := 1/100, cooling_time := 1,
    spectral_type := none, luminosity := none,
    effective_temperature := none, u_ubvri_absolute := none,
    b_ubvri_absolute := none, v_ubvri_absolute := none,
    r_ubvri_absolute := none, i_ubvri_absolute := none }

/-- The record produced by the oxygen-neon loop body on `starC8`. -/
def starC8done : Star :=
  { mass := 2, metallicity := 1/100, cooling_time := 10,
    spectral_type := some SpectralType.ONe,
    luminosity := some (-(10/7)),
    effective_temperature := some (10/7),
    u_ubvri_absolute := some (20/7),
    b_ubvri_absolute := some (20/7),
    v_ubvri_absolute := some (10/7),
    r_ubvri_absolute := some 0,
    i_ubvri_absolute := some 0 }

def tlC10 : Nat → Nat → ℚ := fun _ r => 10 - (r : ℚ)

def tmC10 : Nat → Nat → ℚ := fun i _ => (i : ℚ)

def tmsC10 : Nat → ℚ := fun i => (i : ℚ)

/-- A mass array agreeing with `tmsC10` on its first two entries only. -/
def tmsC10b : Nat → ℚ := fun i => if i ≤ 1 then (i : ℚ) else 99

/-- An empty cooling-sequence family and color table: the carbon-oxygen
loop of the C4 fixture iterates over no star, so these are never
consulted. -/
def cs_dummy : Int → CoolingSequence :=
  fun _ =>
    { base := { mass := [], cooling_time := fun _ _ => 0,
                pre_wd_lifetime := fun _ => 0, rows_counts := fun _ => 0 },
      luminosity := fun _ _ => 0,
      effective_temperature := fun _ _ => 0 }

def ct_dummy : ColorTable :=
  { mass := [],
    luminosity := fun _ _ => 0,
    u_ubvri_absolute := fun _ _ => 0,
    b_ubvri_absolute := fun _ _ => 0,
    v_ubvri_absolute := fun _ _ => 0,
    r_ubvri_absolute := fun _ _ => 0,
    i_ubvri_absolute := fun _ _ => 0,
    rows_counts := fun _ => 0 }

/-- C1: for a star mass below the smallest grid mass the estimator
extrapolates from the two smallest tracks and completes, but for a star
mass at or above the largest grid mass the source passes
`min_mass_index = size - 1` to `extrapolate_by_mass`, which then reads
`mass[size]` — an index error (`none`), not an extrapolation from the two
largest tracks. -/
theorem c1_outermost_mass_extrapolation :
    interpolate id id gC1 intC1 (2/5) 10 false true = some 10
    ∧ interpolate id id gC1 intC1 1 10 false true = none := by
  constructor <;>
    norm_num [interpolate, extrapolate_by_mass, get_xm, get_extrapolated_xm,
      gC1, intC1, List.find?, List.range_succ]

/-- C6: two grids that agree on the mass array, the valid row counts and
every valid row (indices below the count 2) of cooling times and interest
values are distinguished by `get_xm`, because its upper cooling-time
boundary test reads `cooling_time[mass_index, rows_count]` — the first
row past the valid count — and its upper extrapolation then also reads
the interest entry at that row. -/
theorem c6_padding_row_read :
    gC6a.mass = gC6b.mass
    ∧ gC6a.rows_counts 0 = 2 ∧ gC6b.rows_counts 0 = 2
    ∧ gC6a.cooling_time 0 0 = gC6b.cooling_time 0 0
    ∧ gC6a.cooling_time 0 1 = gC6b.cooling_time 0 1
    ∧ get_xm id id gC6a intC6 3 0 false true
      ≠ get_xm id id gC6b intC6 3 0 false true := by
  refine ⟨by norm_num [gC6a, gC6b], rfl, rfl, by norm_num [gC6a, gC6b],
    by norm_num [gC6a, gC6b], ?_⟩
  norm_num [get_xm, get_extrapolated_xm, gC6a, gC6b, intC6,
    List.find?, List.range_succ]
  exact fun h => Option.noConfusion h

/-- C9: for a star metallicity below the smallest tabulated DA
metallicity 0.001, no pair of consecutive metallicities brackets it, the
bracket loop of `da_db_interpolation` sets nothing, and the function
fails with an unbound local variable — modelled as a bare `none` carrying
no description of the star or of the out-of-domain value — for every
choice of grids and of the remaining star fields. -/
theorem c9_unbracketed_metallicity_silent_failure
    (lg pw : ℚ → ℚ) (cooling_sequences : Int → CoolingSequence)
    (color_table : ColorTable) (star_mass t : ℚ) :
    da_db_interpolation lg pw cooling_sequences color_table
      [1/1000, 1/100, 3/100, 6/100] star_mass (1/2000) t = none := by
  norm_num [da_db_interpolation, List.find?, List.range_succ]

/-- C2: with the star's mass bracketed by tracks `k` and `k + 1` and
`den = (star_mass - mass[k]) / (mass[k+1] - mass[k])`, the mass blend of
`interpolate_by_mass` treats the three case combinations exactly as the
claim's formulas: an extrapolated side contributes its single value
directly, while an interpolated side is first resolved linearly at the
target cooling time. -/
theorem c2_mass_blend_cases (lg pw : ℚ → ℚ) (g : Grid)
    (interest : Nat → Nat → ℚ) (m t : ℚ) (bl om : Bool) (k : Nat)
    (mk mk1 : ℚ)
    (hfind : (List.range (g.mass.length - 1)).find? (fun row_index =>
        decide (g.mass.getD row_index 0 ≤ m)
        && decide (m < g.mass.getD (row_index + 1) 0)) = some k)
    (hmk : g.mass.get? k = some mk)
    (hmk1 : g.mass.get? (k + 1) = some mk1) :
    (∀ y1 y2 x1 x2 x3,
      track_case lg pw g interest t k bl om
          = some (TrackCase.interpolated y1 y2 x1 x2) →
      track_case lg pw g interest t (k + 1) bl om
          = some (TrackCase.extrapolated x3) →
      interpolate_by_mass lg pw g interest m t bl om
        = some ((x1 + (x2 - x1) * (t - y1) / (y2 - y1))
            + (x3 - (x1 + (x2 - x1) * (t - y1) / (y2 - y1)))
              * ((m - mk) / (mk1 - mk))))
    ∧ (∀ x1 y3 y4 x3 x4,
      track_case lg pw g interest t k bl om
          = some (TrackCase.extrapolated x1) →
      track_case lg pw g interest t (k + 1) bl om
          = some (TrackCase.interpolated y3 y4 x3 x4) →
      interpolate_by_mass lg pw g interest m t bl om
        = some (x1 + ((x3 + (x4 - x3) * (t - y3) / (y4 - y3)) - x1)
            * ((m - mk) / (mk1 - mk))))
    ∧ (∀ x1 x3,
      track_case lg pw g interest t k bl om
          = some (TrackCase.extrapolated x1) →
      track_case lg pw g interest t (k + 1) bl om
          = some (TrackCase.extrapolated x3) →
      interpolate_by_mass lg pw g interest m t bl om
        = some (x1 + (x3 - x1) * ((m - mk) / (mk1 - mk)))) := by
  refine ⟨fun y1 y2 x1 x2 x3 h1 h2 => ?_, fun x1 y3 y4 x3 x4 h1 h2 => ?_,
    fun x1 x3 h1 h2 => ?_⟩ <;>
    simp only [interpolate_by_mass, hfind, h1, h2, hmk, hmk1,
      Option.bind_eq_bind, Option.some_bind]

/-- C2 witness: a concrete mixed case — lesser track interpolated with
bracket `(y1, y2) = (0, 5)` and values `(x1, x2) = (0, 1)`, greater track
extrapolated to 5 — where the blend evaluates to
`xm1 + (x3 - xm1) * den = 29/10`. -/
theorem c2_mass_blend_cases_witness :
    track_case id id gC2 intC2 4 0 false true
        = some (TrackCase.interpolated 0 5 0 1)
    ∧ track_case id id gC2 intC2 4 1 false true
        = some (TrackCase.extrapolated 5)
    ∧ interpolate_by_mass id id gC2 intC2 2 4 false true = some (29/10) := by
  have h1 : track_case id id gC2 intC2 4 0 false true
      = some (TrackCase.interpolated 0 5 0 1) := by
    norm_num [track_case, get_extrapolated_xm, gC2, intC2,
      List.range_succ, List.filter]
  have h2 : track_case id id gC2 intC2 4 1 false true
      = some (TrackCase.extrapolated 5) := by
    norm_num [track_case, get_extrapolated_xm, gC2, intC2,
      List.range_succ, List.filter]
  refine ⟨h1, h2, ?_⟩
  have h := (c2_mass_blend_cases id id gC2 intC2 2 4 false true 0 1 3
    (by norm_num [gC2, List.find?, List.range_succ])
    (by norm_num [gC2])
    (by norm_num [gC2])).1 0 5 0 1 5 h1 h2
  rw [h]
  norm_num

/-- C3 counterexample: for a star mass bracketed by the color table and a
luminosity resolved through the *interpolated* color-table path, all five
assigned absolute magnitudes are -2: the interpolated path
(`get_interpolated_magnitude`) applies no non-negativity clamp. -/
theorem c3_negative_interpolated_magnitude :
    interpolate_magnitudes 2 (17/2) ctC3 = some (-2, -2, -2, -2, -2)
    ∧ ((-2 : ℚ) < 0) := by
  refine ⟨?_, by norm_num⟩
  norm_num [interpolate_magnitudes, get_magnitudes,
    get_interpolated_magnitudes_by_luminosity, get_interpolated_magnitude,
    linear_estimation, table_mass_fn, ctC3, List.find?, List.range_succ]

/-- C3 amended: the non-negativity clamp holds on the extrapolated
color-table path — `get_abs_magnitude` is `max 0 ·` of its blend — for
every input; the interpolated path and the oxygen-neon branch carry no
clamp. -/
theorem c3_abs_magnitude_clamped (star_mass star_luminosity : ℚ)
    (table_luminosity table_magnitude : Nat → Nat → ℚ)
    (table_mass : Nat → ℚ) (row_index_1 row_index_2 mass_index : Nat) :
    0 ≤ get_abs_magnitude star_mass star_luminosity table_luminosity
      table_magnitude table_mass row_index_1 row_index_2 mass_index := by
  simp only [get_abs_magnitude]
  exact le_max_left 0 _

/-- C5 counterexample: on a star whose cooling time is below the track's
first sample (out of range, so both bracketing tracks extrapolate), the
luminosity limit produced by
`get_luminosity_effective_temperature_limits` is 7/3, while estimating
the same luminosity field with the logarithmic mode yields 16/9: the
luminosity field is not fit in log-space (only effective temperature is,
matching the 16/9 component). -/
theorem c5_luminosity_not_log_mode :
    get_luminosity_effective_temperature_limits id id csC5 2 (1/2) 1 10
      = some (7/3, 7/3, 16/9, 16/9)
    ∧ interpolate id id (csC5 1).base (csC5 1).luminosity 2 (1/2) true false
      = some (16/9)
    ∧ ((7/3 : ℚ) ≠ 16/9) := by
  refine ⟨?_, ?_, by norm_num⟩ <;>
    norm_num [get_luminosity_effective_temperature_limits, interpolate,
      interpolate_by_mass, track_case, get_extrapolated_xm, csC5, cseqC5,
      List.find?, List.range_succ]

/-- C5 amended: in the multi-metallicity carbon-oxygen model every
estimation of the luminosity field runs with `by_logarithm = False` and
every estimation of the effective-temperature field with
`by_logarithm = True`; log-space line fitting applies to out-of-range
effective temperature only. -/
theorem c5_limits_flag_assignment (lg pw : ℚ → ℚ)
    (cooling_sequences : Int → CoolingSequence) (star_mass t : ℚ)
    (k1 k2 : Int) (l1 l2 e1 e2 : ℚ)
    (h : get_luminosity_effective_temperature_limits lg pw
      cooling_sequences star_mass t k1 k2 = some (l1, l2, e1, e2)) :
    interpolate lg pw (cooling_sequences k1).base
      (cooling_sequences k1).luminosity star_mass t false false = some l1
    ∧ interpolate lg pw (cooling_sequences k2).base
      (cooling_sequences k2).luminosity star_mass t false false = some l2
    ∧ interpolate lg pw (cooling_sequences k1).base
      (cooling_sequences k1).effective_temperature star_mass t true false
      = some e1
    ∧ interpolate lg pw (cooling_sequences k2).base
      (cooling_sequences k2).effective_temperature star_mass t true false
      = some e2 := by
  simp only [get_luminosity_effective_temperature_limits,
    Option.bind_eq_bind, Option.bind_eq_some, Option.some.injEq,
    Prod.mk.injEq] at h
  obtain ⟨a, ha, b, hb, c, hc, d, hd, h1, h2, h3, h4⟩ := h
  subst h1; subst h2; subst h3; subst h4
  exact ⟨ha, hc, hb, hd⟩

/-- C5 witness: the amended flag assignment instantiated on the concrete
grid of the counterexample. -/
theorem c5_limits_flag_assignment_witness :
    get_luminosity_effective_temperature_limits id id csC5 2 (1/2) 1 10
      = some (7/3, 7/3, 16/9, 16/9)
    ∧ (interpolate id id (csC5 1).base (csC5 1).luminosity 2 (1/2)
        false false = some (7/3)
      ∧ interpolate id id (csC5 10).base (csC5 10).luminosity 2 (1/2)
        false false = some (7/3)
      ∧ interpolate id id (csC5 1).base (csC5 1).effective_temperature 2
        (1/2) true false = some (16/9)
      ∧ interpolate id id (csC5 10).base (csC5 10).effective_temperature 2
        (1/2) true false = some (16/9)) := by
  have hlim : get_luminosity_effective_temperature_limits id id csC5 2
      (1/2) 1 10 = some (7/3, 7/3, 16/9, 16/9) := by
    norm_num [get_luminosity_effective_temperature_limits, interpolate,
      interpolate_by_mass, track_case, get_extrapolated_xm, csC5, cseqC5,
      List.find?, List.range_succ]
  exact ⟨hlim,
    c5_limits_flag_assignment id id csC5 2 (1/2) 1 10 (7/3) (7/3) (16/9)
      (16/9) hlim⟩

/-- C7 counterexample: luminosity 3 lies below the last-valid-row
luminosity (5, at row index 1 = rows_count - 1) of the lesser bracketing
track, so by the claim the faint-end extrapolation must trigger; but the
code compares against the entry at row index rows_count = 2 (the padding
value 0), does not extrapolate, falls into the interpolation path, finds
no bracket and produces no value at all. -/
theorem c7_faint_boundary_uses_padding_row :
    interpolate_magnitudes 2 3 ctC7 = none
    ∧ ctC7.rows_counts 0 = 2
    ∧ ((3 : ℚ) < ctC7.luminosity 0 (ctC7.rows_counts 0 - 1)) := by
  refine ⟨?_, rfl, by norm_num [ctC7]⟩
  norm_num [interpolate_magnitudes, get_magnitudes,
    get_interpolated_magnitudes_by_luminosity, ctC7,
    List.find?, List.range_succ]

/-- C7 amended: `get_magnitudes` extrapolates at the bright end when the
luminosity exceeds the first-row luminosity of either bracketing track;
it extrapolates at the faint end when the luminosity is below the entry
at row index `rows_count` — the first row past the valid rows, not the
last valid row — of either track; otherwise it interpolates, and the
interpolation bracket test on each track is
`luminosity[i, r+1] <= L <= luminosity[i, r]` (luminosity descending),
taking the first matching row. -/
theorem c7_bracket_tests (ct : ColorTable) (star_mass luminosity : ℚ)
    (rows_count_1 rows_count_2 mass_index : Nat) :
    ((luminosity > ct.luminosity mass_index 0
        ∨ luminosity > ct.luminosity (mass_index + 1) 0) →
      get_magnitudes star_mass luminosity ct rows_count_1 rows_count_2
          mass_index
        = some (get_extrapolated_magnitudes_by_luminosity star_mass
            luminosity ct 0 0 mass_index))
    ∧ (¬(luminosity > ct.luminosity mass_index 0
        ∨ luminosity > ct.luminosity (mass_index + 1) 0) →
      (luminosity < ct.luminosity mass_index rows_count_1
        ∨ luminosity < ct.luminosity (mass_index + 1) rows_count_2) →
      get_magnitudes star_mass luminosity ct rows_count_1 rows_count_2
          mass_index
        = some (get_extrapolated_magnitudes_by_luminosity star_mass
            luminosity ct rows_count_1 rows_count_2 mass_index))
    ∧ (¬(luminosity > ct.luminosity mass_index 0
        ∨ luminosity > ct.luminosity (mass_index + 1) 0) →
      ¬(luminosity < ct.luminosity mass_index rows_count_1
        ∨ luminosity < ct.luminosity (mass_index + 1) rows_count_2) →
      get_magnitudes star_mass luminosity ct rows_count_1 rows_count_2
          mass_index
        = get_interpolated_magnitudes_by_luminosity star_mass rows_count_1
            rows_count_2 ct luminosity mass_index)
    ∧ (∀ row_index_1 row_index_2,
      (List.range (rows_count_1 - 1)).find? (fun row_index =>
        decide (ct.luminosity mass_index (row_index + 1) ≤ luminosity)
        && decide (luminosity ≤ ct.luminosity mass_index row_index))
        = some row_index_1 →
      (List.range (rows_count_2 - 1)).find? (fun row_index =>
        decide (ct.luminosity (mass_index + 1) (row_index + 1) ≤ luminosity)
        && decide (luminosity ≤ ct.luminosity (mass_index + 1) row_index))
        = some row_index_2 →
      get_interpolated_magnitudes_by_luminosity star_mass rows_count_1
          rows_count_2 ct luminosity mass_index
        = some (get_interpolated_magnitude star_mass luminosity
                  ct.luminosity ct.u_ubvri_absolute (table_mass_fn ct)
                  row_index_1 row_index_2 mass_index,
                get_interpolated_magnitude star_mass luminosity
                  ct.luminosity ct.b_ubvri_absolute (table_mass_fn ct)
                  row_index_1 row_index_2 mass_index,
                get_interpolated_magnitude star_mass luminosity
                  ct.luminosity ct.v_ubvri_absolute (table_mass_fn ct)
                  row_index_1 row_index_2 mass_index,
                get_interpolated_magnitude star_mass luminosity
                  ct.luminosity ct.r_ubvri_absolute (table_mass_fn ct)
                  row_index_1 row_index_2 mass_index,
                get_interpolated_magnitude star_mass luminosity
                  ct.luminosity ct.i_ubvri_absolute (table_mass_fn ct)
                  row_index_1 row_index_2 mass_index)) := by
  refine ⟨fun hb => ?_, fun hb hf => ?_, fun hb hf => ?_,
    fun r1 r2 h1 h2 => ?_⟩
  · simp only [get_magnitudes, if_pos hb]
  · simp only [get_magnitudes, if_neg hb, if_pos hf]
  · simp only [get_magnitudes, if_neg hb, if_neg hf]
  · simp only [get_interpolated_magnitudes_by_luminosity, h1, h2]

/-- C7 witness: the faint-end case of the amended bracket tests on the
concrete table, with luminosity -1 below the padding entry 0 at row
index rows_count. -/
theorem c7_bracket_tests_witness :
    ¬((-1 : ℚ) > ctC7.luminosity 0 0 ∨ (-1 : ℚ) > ctC7.luminosity 1 0)
    ∧ ((-1 : ℚ) < ctC7.luminosity 0 2 ∨ (-1 : ℚ) < ctC7.luminosity 1 2)
    ∧ get_magnitudes 2 (-1) ctC7 2 2 0
      = some (get_extrapolated_magnitudes_by_luminosity 2 (-1) ctC7 2 2 0) := by
  have hb : ¬((-1 : ℚ) > ctC7.luminosity 0 0
      ∨ (-1 : ℚ) > ctC7.luminosity 1 0) := by norm_num [ctC7]
  have hf : ((-1 : ℚ) < ctC7.luminosity 0 2
      ∨ (-1 : ℚ) < ctC7.luminosity 1 2) := by norm_num [ctC7]
  exact ⟨hb, hf, (c7_bracket_tests ctC7 2 (-1) 2 2 0).2.1 hb hf⟩

/-- C8: the oxygen-neon branch (i) resolves every lookup at the
pre-transformed cooling time `log10(cooling_time) + 9` with
`by_logarithm = False` and `one_model = True`; (ii) with the single-model
flag set, out-of-range resolution is the plain line through the two grid
points in cooling time — equal to `linear_estimation` on them and
independent of the log-model functions and of `by_logarithm`; and (iii)
the branch assigns spectral type ONe to the updated record. -/
theorem c8_one_branch (lg pw lg2 pw2 : ℚ → ℚ) (g : Grid)
    (interest : Nat → Nat → ℚ) (t : ℚ) (mass_index min_row_index : Nat)
    (bl bl2 : Bool) (ct : OneTable) (star_mass cooling_time : ℚ)
    (out : ℚ × ℚ × ℚ × ℚ × ℚ × ℚ × ℚ) (s s' : Star) :
    (get_extrapolated_xm lg pw g interest t mass_index min_row_index bl true
      = get_extrapolated_xm lg2 pw2 g interest t mass_index min_row_index
          bl2 true)
    ∧ (g.cooling_time mass_index min_row_index
        ≠ g.cooling_time mass_index (min_row_index + 1) →
      get_extrapolated_xm lg pw g interest t mass_index min_row_index bl true
        = linear_estimation (g.cooling_time mass_index min_row_index)
            (g.cooling_time mass_index (min_row_index + 1))
            (interest mass_index min_row_index)
            (interest mass_index (min_row_index + 1)) t)
    ∧ (one_interpolation lg pw ct star_mass cooling_time true false
        = some out →
      interpolate lg pw ct.base ct.luminosity star_mass
        (lg cooling_time + 9) false true = some out.1)
    ∧ (one_branch_update lg pw ct s = some s' →
      s'.spectral_type = some SpectralType.ONe) := by
  refine ⟨by simp [get_extrapolated_xm], fun h => ?_, fun h => ?_,
    fun h => ?_⟩
  · have hd : g.cooling_time mass_index (min_row_index + 1)
        - g.cooling_time mass_index min_row_index ≠ 0 :=
      sub_ne_zero.mpr (Ne.symm h)
    simp only [get_extrapolated_xm, linear_estimation, if_true]
    field_simp
    ring
  · simp only [one_interpolation, Option.bind_eq_bind, Option.bind_eq_some,
      Option.some.injEq] at h
    obtain ⟨l, hl, v, hv, bv, hbv, vi, hvi, vr, hvr, uv, huv, lt, hlt,
      hout⟩ := h
    subst hout
    exact hl
  · simp only [one_branch_update, Option.bind_eq_bind, Option.bind_eq_some,
      Option.some.injEq] at h
    obtain ⟨o, ho, hs⟩ := h
    subst hs
    rfl

lemma otC8_interpolate :
    interpolate id id otC8base otC8fn 2 10 false true = some (10/7) := by
  norm_num [interpolate, interpolate_by_mass, track_case, otC8base, otC8fn,
    List.find?, List.range_succ, List.filter]

/-- C8 witness: the ONe-branch facts instantiated on a concrete table and
star with cooling time 1 (transformed to 10). -/
theorem c8_one_branch_witness :
    otC8.base.cooling_time 0 2 ≠ otC8.base.cooling_time 0 3
    ∧ get_extrapolated_xm id id otC8.base otC8.luminosity 4 0 2 false true
      = linear_estimation (otC8.base.cooling_time 0 2)
          (otC8.base.cooling_time 0 3) (otC8.luminosity 0 2)
          (otC8.luminosity 0 3) 4
    ∧ one_interpolation id id otC8 2 1 true false
      = some (10/7, 10/7, 20/7, 20/7, 10/7, 0, 0)
    ∧ interpolate id id otC8.base otC8.luminosity 2 (id 1 + 9) false true
      = some (10/7)
    ∧ one_branch_update id id otC8 starC8 = some starC8done
    ∧ starC8done.spectral_type = some SpectralType.ONe := by
  have hne : otC8.base.cooling_time 0 2 ≠ otC8.base.cooling_time 0 3 := by
    norm_num [otC8, otC8base]
  have ht : (id (1 : ℚ) + 9) = 10 := by norm_num
  have hone : one_interpolation id id otC8 2 1 true false
      = some (10/7, 10/7, 20/7, 20/7, 10/7, 0, 0) := by
    simp only [one_interpolation, otC8, ht, otC8_interpolate,
      Option.bind_eq_bind, Option.some_bind, Option.some.injEq]
    norm_num
  have hupd : one_branch_update id id otC8 starC8 = some starC8done := by
    simp only [one_branch_update, starC8, hone, Option.bind_eq_bind,
      Option.some_bind, id_eq, starC8done]
    norm_num
  exact ⟨hne,
    (c8_one_branch id id id id otC8.base otC8.luminosity 4 0 2 false false
      otC8 2 1 (10/7, 10/7, 20/7, 20/7, 10/7, 0, 0) starC8
      starC8done).2.1 hne,
    hone,
    (c8_one_branch id id id id otC8.base otC8.luminosity 4 0 2 false false
      otC8 2 1 (10/7, 10/7, 20/7, 20/7, 10/7, 0, 0) starC8
      starC8done).2.2.1 hone,
    hupd,
    (c8_one_branch id id id id otC8.base otC8.luminosity 4 0 2 false false
      otC8 2 1 (10/7, 10/7, 20/7, 20/7, 10/7, 0, 0) starC8
      starC8done).2.2.2 hupd⟩

/-- C10: `get_interpolated_magnitude` depends on the mass array only
through its entries 0 and 1 — its blend is anchored at the first two
tabulated masses whatever the bracket index `k` — whereas
`get_abs_magnitude` blends its per-track candidates (from tracks `k` and
`k + 1` in both functions) at anchors `table_mass[k]`,
`table_mass[k + 1]`; on a concrete table with `k = 1` the two anchorings
give different values (6 against 5). -/
theorem c10_mass_anchor :
    (∀ (m L : ℚ) (tl tm : Nat → Nat → ℚ) (tms tms' : Nat → ℚ)
        (r1 r2 k : Nat),
      tms 0 = tms' 0 → tms 1 = tms' 1 →
      get_interpolated_magnitude m L tl tm tms r1 r2 k
        = get_interpolated_magnitude m L tl tm tms' r1 r2 k)
    ∧ (∀ (m L : ℚ) (tl tm : Nat → Nat → ℚ) (tms : Nat → ℚ) (r1 r2 k : Nat),
      get_abs_magnitude m L tl tm tms r1 r2 k
        = max 0 (linear_estimation (tms k) (tms (k + 1))
            (linear_estimation (tl k r1) (tl k (r1 + 1)) (tm k r1)
              (tm k (r1 + 1)) L)
            (linear_estimation (tl (k + 1) r2) (tl (k + 1) (r2 + 1))
              (tm (k + 1) r2) (tm (k + 1) (r2 + 1)) L) m))
    ∧ get_interpolated_magnitude 5 1 tlC10 tmC10 tmsC10 0 0 1 = 6
    ∧ max 0 (linear_estimation (tmsC10 1) (tmsC10 2)
        (linear_estimation (tlC10 1 0) (tlC10 1 1) (tmC10 1 0) (tmC10 1 1) 1)
        (linear_estimation (tlC10 2 0) (tlC10 2 1) (tmC10 2 0) (tmC10 2 1) 1)
        5) = 5
    ∧ ((6 : ℚ) ≠ 5) := by
  refine ⟨fun m L tl tm tms tms' r1 r2 k h0 h1 => ?_,
    fun m L tl tm tms r1 r2 k => rfl, ?_, ?_, by norm_num⟩
  · simp only [get_interpolated_magnitude, h0, h1]
  · norm_num [get_interpolated_magnitude, linear_estimation, tlC10, tmC10,
      tmsC10]
  · norm_num [linear_estimation, tlC10, tmC10, tmsC10]

/-- C10 witness: the first-two-entries independence applied at the
concrete pair `tmsC10`, `tmsC10b`. -/
theorem c10_mass_anchor_witness :
    tmsC10 0 = tmsC10b 0 ∧ tmsC10 1 = tmsC10b 1
    ∧ get_interpolated_magnitude 5 1 tlC10 tmC10 tmsC10 0 0 1
      = get_interpolated_magnitude 5 1 tlC10 tmC10 tmsC10b 0 0 1 := by
  have h0 : tmsC10 0 = tmsC10b 0 := by norm_num [tmsC10, tmsC10b]
  have h1 : tmsC10 1 = tmsC10b 1 := by norm_num [tmsC10, tmsC10b]
  exact ⟨h0, h1, c10_mass_anchor.1 5 1 tlC10 tmC10 tmsC10 tmsC10b 0 0 1 h0 h1⟩

/-- C4: on a collection holding one oxygen-neon star (mass 2, at the
default threshold 1.14), `assign_magnitudes` completes, yet the input
collection it returns is exactly the unmodified input — the row updates
are computed on `iterrows` copies and discarded, so the star's derived
fields stay unset — and the value of
`carbon_oxygen_white_dwarfs + oxygen_neon_white_dwarfs` it also returns
is a frame with every field missing, not that collection. -/
theorem c4_no_in_place_mutation :
    assign_magnitudes id id (fun _ => 0) (114/100) (1/5) cs_dummy cs_dummy
      ct_dummy ct_dummy otC8 [starC8]
      = some ([starC8], [(0, (none : Option Star))])
    ∧ starC8.spectral_type = none
    ∧ starC8.luminosity = none := by
  have ht : (id (1 : ℚ) + 9) = 10 := by norm_num
  have hone : one_interpolation id id otC8 2 1 true false
      = some (10/7, 10/7, 20/7, 20/7, 10/7, 0, 0) := by
    simp only [one_interpolation, otC8, ht, otC8_interpolate,
      Option.bind_eq_bind, Option.some_bind, Option.some.injEq]
    norm_num
  have hupd : one_branch_update id id otC8 starC8 = some starC8done := by
    simp only [one_branch_update, starC8, hone, Option.bind_eq_bind,
      Option.some_bind, id_eq, starC8done]
    norm_num
  refine ⟨?_, rfl, rfl⟩
  have hmask : decide (starC8.mass < (114/100 : ℚ)) = false := by
    norm_num [starC8]
  simp only [assign_magnitudes, List.enum, List.enumFrom, List.filter,
    hmask, Bool.not_false, Bool.not_true, List.mapM_nil, List.mapM_cons,
    hupd, frame_add, sort_nat, insert_nat, List.map, List.append_nil,
    Option.pure_def, Option.bind_eq_bind, Option.some_bind]

end Alcor

